import Mathlib

/-!
Verification development for the tasty.js marking-menu core.

The definitions below are a shallow embedding of the input-to-selection
pipeline of `src/lib/menu/menu.ts` and of the event record of
`src/lib/menu/menu-event.ts`.  Observable composition (rxjs `switchMap`,
`mergeMap`, `takeUntil`, `timeoutWith`, `finalize`) is re-expressed as an
explicit state machine driven by a timed event list; time is a natural
number of abstract time units (the code's milliseconds).  Angle utilities
(`src/utlis/angle.ts`) are not part of the available sources and are
modelled from the specification where a claim needs them.
-/

/-- 2D point with exact rational coordinates (paper.js `Point`). -/
abbrev Point : Type := ℚ × ℚ

/-- Modelled from the spec: `ZERO_POINT` of `src/lib/constants.ts` (file not
in the available sources); the origin point `(0, 0)`. -/
def ZERO_POINT : Point := (0, 0)

/-- Squared euclidean distance between two points (used to compare a drag's
travel against `minDistance` without square roots). -/
def sqDist (p q : Point) : ℚ := (p.1 - q.1) ^ 2 + (p.2 - q.2) ^ 2

/-- Modelled from the spec and from the defaults shown in
`builder/builder.js`: the `main.minDistance` setting, default `150`
(`src/lib/settings.ts` is not in the available sources). -/
def Settings.minDistance : ℚ := 150

/-- A normalized platform input event: `buttons` is the MouseEvent buttons
bitmask at activation time, `button` the released button at deactivation
time. -/
structure Input where
  buttons : Nat
  button : Nat
deriving DecidableEq, Repr

/-- The three logical input events fed into the Menu's subjects
(`inputActivation$`, `inputDeactivation$`, `inputPosition$`);
`leave` events are folded into deactivation by the wiring in
`setupObservableDataFromInputEvents`. -/
inductive MenuInput : Type where
  | activation (i : Input)
  | deactivation (i : Input)
  | position (p : Point)
deriving DecidableEq, Repr

/-- `ClickState` from `src/lib/enums.ts` (values observed in `menu.ts`). -/
inductive ClickState : Type where
  | LEFT_CLICK
  | RIGHT_CLICK
deriving DecidableEq, Repr

/-- `DragState` from `src/lib/enums.ts` (values observed in `menu.ts`). -/
inductive DragState : Type where
  | DRAGGING
  | END
deriving DecidableEq, Repr

/-- `DragDefinition` from `src/lib/interfaces`: a drag-stream payload. -/
structure DragDefinition where
  position : Point
  state : DragState
deriving DecidableEq, Repr

/-- `ItemState` from `src/lib/enums.ts` (values observed in `menu.ts` and
described in the spec's state machine NONE/HIDDEN/ACTIVE/SELECTED). -/
inductive ItemState : Type where
  | NONE
  | HIDDEN
  | ACTIVE
  | SELECTED
deriving DecidableEq, Repr

/-- The slice of the root `MenuItem` that `Menu.display` manipulates:
its lifecycle `state`, `visible` flag and `position`. -/
structure RootItem where
  state : ItemState
  visible : Bool
  position : Point
deriving DecidableEq, Repr

/-- `Menu.INPUT_TIMEOUT` (`menu.ts` line 24): time between activation and
deactivation for a click event, 200 time units. -/
def Menu.INPUT_TIMEOUT : Nat := 200

/-- State of a constructed `Menu` object (`menu.ts`).  `rootItem` is
`none` until `setStructure` runs; `clickSubjDefined` / `draggingSubjDefined`
record whether the `_click$` / `_dragging$` subjects are assigned (the
constructor assigns both).  `inited` records that `init()` has run
(canvas, scope and observable wiring).  The fade animation is modelled by
start/stop counters plus a running flag, the trace by its list of samples,
the debug visualization group by its child count. -/
structure MenuState where
  rootItem : Option RootItem
  inputPosition : Point
  markingMode : Bool
  trace : List Point
  traceVisCount : Nat
  fadeStarts : Nat
  fadeStops : Nat
  fadeRunning : Bool
  inited : Bool
  clickSubjDefined : Bool
  draggingSubjDefined : Bool
deriving DecidableEq, Repr

/-- The `Menu` constructor (`menu.ts` lines 152-165): merges settings,
creates the fade animation, the trace and all subjects; `_inputPosition`
starts at `ZERO_POINT`, `_markingMode` at `false`, `_rootItem` unassigned. -/
def Menu.new : MenuState :=
  { rootItem := none
    inputPosition := ZERO_POINT
    markingMode := false
    trace := []
    traceVisCount := 0
    fadeStarts := 0
    fadeStops := 0
    fadeRunning := false
    inited := false
    clickSubjDefined := true
    draggingSubjDefined := true }

/-- `Menu.init` (`menu.ts` lines 251-280): looks up the root element, sets
up canvas, scope, observables and the trace visualization group.  It never
assigns `_rootItem`. -/
def Menu.init (m : MenuState) : MenuState :=
  { m with inited := true, traceVisCount := 0 }

/-- `Menu.setStructure` (`menu.ts` lines 311-329): stores the parsed root
item, initializes it, hides it and initializes the fade animation. -/
def Menu.setStructure (m : MenuState) (root : RootItem) : MenuState :=
  { m with rootItem := some { root with visible := false } }

/-- The `click$` accessor (`menu.ts` lines 182-188): throws
`'Menu not initialized'` if the `_click$` subject is undefined, otherwise
returns the observable. -/
def Menu.clickObs (m : MenuState) : Except String Unit :=
  if m.clickSubjDefined then Except.ok () else Except.error "Menu not initialized"

/-- The `dragging$` accessor (`menu.ts` lines 195-201): throws
`'Menu not initialized'` if the `_dragging$` subject is undefined,
otherwise returns the observable. -/
def Menu.draggingObs (m : MenuState) : Except String Unit :=
  if m.draggingSubjDefined then Except.ok () else Except.error "Menu not initialized"

/-- The `selection$` accessor (`menu.ts` lines 209-215): throws
`'Menu not initialized'` if `_rootItem` is undefined, otherwise returns the
root item's selection observable. -/
def Menu.selectionObs (m : MenuState) : Except String Unit :=
  match m.rootItem with
  | none => Except.error "Menu not initialized"
  | some _ => Except.ok ()

/-- `Menu.display` (`menu.ts` lines 288-304): throws
`'Menu not initialized.'` if `_rootItem` is undefined; when the root item
is `HIDDEN` or `NONE` it resets the trace, clears the trace visualization
group, stops and restarts the fade animation, makes the root item visible,
sets its state to `ACTIVE` and moves it to the current input position;
otherwise it does nothing. -/
def Menu.display (m : MenuState) : Except String MenuState :=
  match m.rootItem with
  | none => Except.error "Menu not initialized."
  | some root =>
    if root.state = ItemState.HIDDEN ∨ root.state = ItemState.NONE then
      Except.ok { m with
        trace := []
        traceVisCount := 0
        fadeStops := m.fadeStops + 1
        fadeStarts := m.fadeStarts + 1
        fadeRunning := true
        rootItem := some { state := ItemState.ACTIVE, visible := true, position := m.inputPosition } }
    else
      Except.ok m

/-- Runtime state of an initialized menu (`init()` and `setStructure` have
both run, so `_rootItem` is assigned and the observable wiring of
`setupObservables` is live).  `dragInner` records whether the `switchMap`
drag inner subscription is live; `clickInners` holds, for every live
`mergeMap` click inner, its current `timeoutWith` deadline. -/
structure MenuCore where
  root : RootItem
  inputPosition : Point
  markingMode : Bool
  trace : List Point
  traceVisCount : Nat
  fadeStarts : Nat
  fadeStops : Nat
  fadeRunning : Bool
  dragInner : Bool
  clickInners : List Nat
deriving DecidableEq, Repr

/-- The state of an initialized menu right after `init()` and
`setStructure(root)` with no input processed yet. -/
def Menu.freshCore (root : RootItem) : MenuCore :=
  { root := { root with visible := false }
    inputPosition := ZERO_POINT
    markingMode := false
    trace := []
    traceVisCount := 0
    fadeStarts := 0
    fadeStops := 0
    fadeRunning := false
    dragInner := false
    clickInners := [] }

/-- `Menu.display` on an initialized menu (the `some` branch of
`Menu.display` above, `menu.ts` lines 293-303). -/
def Menu.displayCore (s : MenuCore) : MenuCore :=
  if s.root.state = ItemState.HIDDEN ∨ s.root.state = ItemState.NONE then
    { s with
      trace := []
      traceVisCount := 0
      fadeStops := s.fadeStops + 1
      fadeStarts := s.fadeStarts + 1
      fadeRunning := true
      root := { state := ItemState.ACTIVE, visible := true, position := s.inputPosition } }
  else s

/-- The `_dragging$` subscriber of `setupObservables` (`menu.ts` lines
424-428): on every drag event, call `display()`, set `_markingMode` to
whether the event is not an `END` event, and forward the sample to
`Trace.update` (modelled as appending the sample; `src/utlis/trace.ts` is
not in the available sources). -/
def Menu.onDrag (s : MenuCore) (d : DragDefinition) : MenuCore :=
  let s := Menu.displayCore s
  let s := { s with markingMode := decide (d.state ≠ DragState.END) }
  { s with trace := s.trace ++ [d.position] }

/-- Tear-down of the live drag inner subscription (`menu.ts` lines
395-404): `takeUntil(inputDeactivation$)` completes it, a new primary
activation's `switchMap` unsubscribes it; either way its `finalize`
callback runs: if `_markingMode` is set, clear it and push one final
`{position: inputPosition, state: END}` event into `_dragging$`
(which its subscriber then processes).  Returns the updated state and
the drag events emitted on `_dragging$`. -/
def Menu.unsubDragInner (s : MenuCore) : MenuCore × List DragDefinition :=
  if s.dragInner then
    if s.markingMode then
      let d : DragDefinition := { position := s.inputPosition, state := DragState.END }
      (Menu.onDrag { s with dragInner := false, markingMode := false } d, [d])
    else ({ s with dragInner := false }, [])
  else (s, [])

/-- The `_click$` subscriber of `setupObservables` (`menu.ts` lines
434-438): a `LEFT_CLICK` calls `display()`. -/
def Menu.onClickEvent (s : MenuCore) (c : ClickState) : MenuCore :=
  if c = ClickState.LEFT_CLICK then Menu.displayCore s else s

/-- One step of the initialized menu's observable network (`menu.ts`
`setupObservables`, lines 383-439) on a timed input event.

* `position p`: the `inputPosition$` subscriber stores the sample
  (line 430, subscribed before any drag inner exists); if a drag inner is
  live it maps the sample to a `DRAGGING` event which flows into
  `_dragging$` and its subscriber.
* `activation i`: the drag pipeline's `filter(e.buttons === 1)` admits a
  primary activation, whose `switchMap` unsubscribes any previous inner
  (running its `finalize`) and starts a new one; the click pipeline's
  `mergeMap` starts a new inner on `inputDeactivation$` with a
  `timeoutWith` deadline of `t + INPUT_TIMEOUT`.
* `deactivation i`: `takeUntil` completes the live drag inner (its
  `finalize` may emit a final `END` event); every click inner whose
  deadline has not yet passed emits one click, classified `LEFT_CLICK`
  when `e.button === 0` and `RIGHT_CLICK` otherwise, and gets a fresh
  deadline (`timeoutWith` re-arms per emission); click inners whose
  deadline passed have switched to the silent fallback observable and are
  dropped.  The `_click$` subscriber then processes each click.

Returns the new state, the events emitted on `_dragging$` and the events
emitted on `_click$`. -/
def Menu.step (s : MenuCore) (t : Nat) (e : MenuInput) : MenuCore × List DragDefinition × List ClickState :=
  match e with
  | MenuInput.position p =>
    let s := { s with inputPosition := p }
    if s.dragInner then
      let d : DragDefinition := { position := p, state := DragState.DRAGGING }
      (Menu.onDrag s d, [d], [])
    else (s, [], [])
  | MenuInput.activation i =>
    let (s, ds) :=
      if i.buttons = 1 then
        let (s, ds) := Menu.unsubDragInner s
        ({ s with dragInner := true }, ds)
      else (s, [])
    ({ s with clickInners := s.clickInners ++ [t + Menu.INPUT_TIMEOUT] }, ds, [])
  | MenuInput.deactivation i =>
    let (s, ds) := Menu.unsubDragInner s
    let live := s.clickInners.filter (fun dl => t < dl)
    let c := if i.button = 0 then ClickState.LEFT_CLICK else ClickState.RIGHT_CLICK
    let cs := live.map (fun _ => c)
    let s := { s with clickInners := live.map (fun _ => t + Menu.INPUT_TIMEOUT) }
    (cs.foldl Menu.onClickEvent s, ds, cs)

/-- Run the initialized menu on a timed event list, concatenating the
events emitted on `_dragging$` and on `_click$`. -/
def Menu.run (s : MenuCore) : List (Nat × MenuInput) → MenuCore × List DragDefinition × List ClickState
  | [] => (s, [], [])
  | (t, e) :: rest =>
    let (s₁, ds, cs) := Menu.step s t e
    let (s₂, ds', cs') := Menu.run s₁ rest
    (s₂, ds ++ ds', cs ++ cs')

/-- The most recent position sample in a timed event list, or `d` if the
list holds no position event. -/
def lastPosition (evs : List (Nat × MenuInput)) (d : Point) : Point :=
  evs.foldl (fun acc te => match te.2 with | MenuInput.position p => p | _ => acc) d

/-- Reduction of a scalar into the canonical half-open window `[0, 360)`
by subtracting the appropriate multiple of 360. -/
def normalize360 {α : Type} [LinearOrderedField α] [FloorRing α] (x : α) : α :=
  x - 360 * (Int.floor (x / 360) : α)

/-- Modelled from the spec: `Angle.toDeg` of `src/utlis/angle.ts` (file not
in the available sources); converts radians to normalized degrees in
`[0, 360)`. -/
noncomputable def Angle.toDeg (r : ℝ) : ℝ :=
  normalize360 (r * (180 / Real.pi))

/-- Modelled from the spec: `Angle.difference` of `src/utlis/angle.ts`
(file not in the available sources); the signed shortest-path angular
delta between two directions given in degrees, with codomain
`(-180, 180]` as stated in spec section 4.1. -/
def Angle.difference (a b : ℚ) : ℚ :=
  let d := normalize360 (a - b)
  if 180 < d then d - 360 else d

/-- Modelled from the spec: the `MenuItemEventType` enumeration of
`src/lib/enums.ts` (file not in the available sources); the user-visible
outcome kinds named in spec sections 4.3 and 6. -/
inductive MenuItemEventType : Type where
  | selection
  | hover
  | descend
  | cancel
deriving DecidableEq, Repr

/-- A primitive JS value as allowed in a `MenuEvent` data payload
(`Record<string, string | number | boolean>`). -/
inductive PrimValue : Type where
  | str (v : String)
  | num (v : ℚ)
  | bool (v : Bool)
deriving DecidableEq, Repr

/-- A JS plain record with string keys and primitive values, represented
as its key-value pairs (a JS object holds each key at most once). -/
abbrev DataRecord : Type := List (String × PrimValue)

/-- lodash `isEqual` on optional data records (external library):
`undefined` equals only `undefined`; two records are deeply equal when
they hold the same keys with the same values, regardless of key order. -/
def isEqual (a b : Option DataRecord) : Bool :=
  match a, b with
  | none, none => true
  | some a, some b => a.length == b.length && a.all (fun kv => b.lookup kv.1 == some kv.2)
  | _, _ => false

/-- `MenuIdentifier` from `src/lib/interfaces/menu-identifier.ts`:
an item id together with the angle under which the item is referenced.
The angle scalar type is a parameter: `ℚ` where decidable comparison is
needed, `ℝ` where the radians-to-degrees conversion is involved. -/
structure MenuIdentifier (α : Type) where
  itemId : String
  angle : α
deriving DecidableEq, Repr

/-- `MenuEvent` fields (`src/lib/menu/menu-event.ts`, lines 10-17). -/
structure MenuEvent (α : Type) where
  type : MenuItemEventType
  source : MenuIdentifier α
  target : Option (MenuIdentifier α)
  data : Option DataRecord
deriving DecidableEq, Repr

/-- The `MenuEvent` constructor (`menu-event.ts` lines 27-45): copies the
source identifier with its angle converted through `Angle.toDeg`, stores
the data payload unchanged, and, when a target is given, copies it with
its angle converted through `Angle.toDeg`. -/
noncomputable def MenuEvent.construct (type : MenuItemEventType)
    (source : MenuIdentifier ℝ) (target : Option (MenuIdentifier ℝ))
    (data : Option DataRecord) : MenuEvent ℝ :=
  { type := type
    source := { itemId := source.itemId, angle := Angle.toDeg source.angle }
    data := data
    target := target.map (fun t => { itemId := t.itemId, angle := Angle.toDeg t.angle }) }

/-- `MenuEvent.equals` (`menu-event.ts` lines 53-71): an undefined
argument is never equal; otherwise the types must match, the source item
ids must match, the targets are compared by item id and angle only when
both are present (otherwise the target comparison passes), and the data
payloads are compared with lodash `isEqual`. -/
def MenuEvent.equals {α : Type} [DecidableEq α]
    (this : MenuEvent α) (event : Option (MenuEvent α)) : Bool :=
  match event with
  | none => false
  | some e =>
    let selectionTypeEquals := decide (e.type = this.type)
    let sourceEquals := decide (e.source.itemId = this.source.itemId)
    let targetEquals :=
      match e.target, this.target with
      | some et, some tt => decide (et.itemId = tt.itemId) && decide (et.angle = tt.angle)
      | _, _ => true
    let dataEquals := isEqual e.data this.data
    selectionTypeEquals && targetEquals && sourceEquals && dataEquals

/-! ### Helper lemmas about the initialized menu's step function -/

lemma displayCore_inputPosition (s : MenuCore) :
    (Menu.displayCore s).inputPosition = s.inputPosition := by
  unfold Menu.displayCore; split <;> rfl

lemma displayCore_markingMode (s : MenuCore) :
    (Menu.displayCore s).markingMode = s.markingMode := by
  unfold Menu.displayCore; split <;> rfl

lemma displayCore_dragInner (s : MenuCore) :
    (Menu.displayCore s).dragInner = s.dragInner := by
  unfold Menu.displayCore; split <;> rfl

lemma displayCore_clickInners (s : MenuCore) :
    (Menu.displayCore s).clickInners = s.clickInners := by
  unfold Menu.displayCore; split <;> rfl

lemma onDrag_inputPosition (s : MenuCore) (d : DragDefinition) :
    (Menu.onDrag s d).inputPosition = s.inputPosition := by
  simp [Menu.onDrag, displayCore_inputPosition]

lemma onDrag_markingMode (s : MenuCore) (d : DragDefinition) :
    (Menu.onDrag s d).markingMode = decide (d.state ≠ DragState.END) := by
  simp [Menu.onDrag]

lemma onDrag_dragInner (s : MenuCore) (d : DragDefinition) :
    (Menu.onDrag s d).dragInner = s.dragInner := by
  simp [Menu.onDrag, displayCore_dragInner]

lemma onDrag_clickInners (s : MenuCore) (d : DragDefinition) :
    (Menu.onDrag s d).clickInners = s.clickInners := by
  simp [Menu.onDrag, displayCore_clickInners]

lemma onClickEvent_inputPosition (s : MenuCore) (c : ClickState) :
    (Menu.onClickEvent s c).inputPosition = s.inputPosition := by
  unfold Menu.onClickEvent; split <;> simp [displayCore_inputPosition]

lemma onClickEvent_markingMode (s : MenuCore) (c : ClickState) :
    (Menu.onClickEvent s c).markingMode = s.markingMode := by
  unfold Menu.onClickEvent; split <;> simp [displayCore_markingMode]

lemma onClickEvent_dragInner (s : MenuCore) (c : ClickState) :
    (Menu.onClickEvent s c).dragInner = s.dragInner := by
  unfold Menu.onClickEvent; split <;> simp [displayCore_dragInner]

lemma onClickEvent_clickInners (s : MenuCore) (c : ClickState) :
    (Menu.onClickEvent s c).clickInners = s.clickInners := by
  unfold Menu.onClickEvent; split <;> simp [displayCore_clickInners]

lemma foldl_onClickEvent_inputPosition (cs : List ClickState) (s : MenuCore) :
    (cs.foldl Menu.onClickEvent s).inputPosition = s.inputPosition := by
  induction cs generalizing s with
  | nil => rfl
  | cons c cs ih => simp [List.foldl, ih, onClickEvent_inputPosition]

lemma foldl_onClickEvent_markingMode (cs : List ClickState) (s : MenuCore) :
    (cs.foldl Menu.onClickEvent s).markingMode = s.markingMode := by
  induction cs generalizing s with
  | nil => rfl
  | cons c cs ih => simp [List.foldl, ih, onClickEvent_markingMode]

lemma foldl_onClickEvent_dragInner (cs : List ClickState) (s : MenuCore) :
    (cs.foldl Menu.onClickEvent s).dragInner = s.dragInner := by
  induction cs generalizing s with
  | nil => rfl
  | cons c cs ih => simp [List.foldl, ih, onClickEvent_dragInner]

lemma foldl_onClickEvent_clickInners (cs : List ClickState) (s : MenuCore) :
    (cs.foldl Menu.onClickEvent s).clickInners = s.clickInners := by
  induction cs generalizing s with
  | nil => rfl
  | cons c cs ih => simp [List.foldl, ih, onClickEvent_clickInners]

lemma unsubDragInner_inputPosition (s : MenuCore) :
    (Menu.unsubDragInner s).1.inputPosition = s.inputPosition := by
  unfold Menu.unsubDragInner
  split <;> [skip; rfl]
  split <;> simp [onDrag_inputPosition]

lemma unsubDragInner_markingMode (s : MenuCore) :
    (Menu.unsubDragInner s).1.markingMode = (!s.dragInner && s.markingMode) := by
  unfold Menu.unsubDragInner
  split <;> rename_i h
  · split <;> rename_i h2
    · simp [onDrag_markingMode, h]
    · simp_all
  · simp_all

lemma unsubDragInner_dragInner (s : MenuCore) :
    (Menu.unsubDragInner s).1.dragInner = false := by
  unfold Menu.unsubDragInner
  split <;> rename_i h
  · split <;> simp [onDrag_dragInner]
  · simp_all

lemma unsubDragInner_clickInners (s : MenuCore) :
    (Menu.unsubDragInner s).1.clickInners = s.clickInners := by
  unfold Menu.unsubDragInner
  split <;> [skip; rfl]
  split <;> simp [onDrag_clickInners]

lemma unsubDragInner_log (s : MenuCore) :
    (Menu.unsubDragInner s).2 =
      if s.dragInner && s.markingMode
      then [{ position := s.inputPosition, state := DragState.END }]
      else [] := by
  unfold Menu.unsubDragInner
  split <;> rename_i h
  · split <;> rename_i h2 <;> simp_all
  · simp_all

lemma step_position_eq (s : MenuCore) (t : Nat) (p : Point) :
    Menu.step s t (MenuInput.position p) =
      if s.dragInner
      then (Menu.onDrag { s with inputPosition := p } { position := p, state := DragState.DRAGGING },
            [{ position := p, state := DragState.DRAGGING }], [])
      else ({ s with inputPosition := p }, [], []) := by
  simp [Menu.step]

lemma step_activation_eq (s : MenuCore) (t : Nat) (i : Input) :
    Menu.step s t (MenuInput.activation i) =
      if i.buttons = 1
      then ({ (Menu.unsubDragInner s).1 with
                dragInner := true
                clickInners := (Menu.unsubDragInner s).1.clickInners ++ [t + Menu.INPUT_TIMEOUT] },
            (Menu.unsubDragInner s).2, [])
      else ({ s with clickInners := s.clickInners ++ [t + Menu.INPUT_TIMEOUT] }, [], []) := by
  simp only [Menu.step]
  cases h : Menu.unsubDragInner s with
  | mk s' ds' => split <;> rename_i hb <;> simp_all

lemma step_deactivation_eq (s : MenuCore) (t : Nat) (i : Input) :
    Menu.step s t (MenuInput.deactivation i) =
      (((s.clickInners.filter (fun dl => t < dl)).map
          (fun _ => if i.button = 0 then ClickState.LEFT_CLICK else ClickState.RIGHT_CLICK)).foldl
          Menu.onClickEvent
          { (Menu.unsubDragInner s).1 with
            clickInners := (s.clickInners.filter (fun dl => t < dl)).map (fun _ => t + Menu.INPUT_TIMEOUT) },
        (Menu.unsubDragInner s).2,
        (s.clickInners.filter (fun dl => t < dl)).map
          (fun _ => if i.button = 0 then ClickState.LEFT_CLICK else ClickState.RIGHT_CLICK)) := by
  simp only [Menu.step]
  cases h : Menu.unsubDragInner s with
  | mk s' ds' =>
    have hc := unsubDragInner_clickInners s
    rw [h] at hc
    simp_all

lemma run_cons (s : MenuCore) (t : Nat) (e : MenuInput) (rest : List (Nat × MenuInput)) :
    Menu.run s ((t, e) :: rest) =
      ((Menu.run (Menu.step s t e).1 rest).1,
       (Menu.step s t e).2.1 ++ (Menu.run (Menu.step s t e).1 rest).2.1,
       (Menu.step s t e).2.2 ++ (Menu.run (Menu.step s t e).1 rest).2.2) := by
  cases h1 : Menu.step s t e with
  | mk s1 l =>
    cases l with
    | mk ds cs =>
      cases h2 : Menu.run s1 rest with
      | mk s2 l2 =>
        cases l2 with
        | mk ds2 cs2 =>
          simp only [Menu.run, h1, h2]

lemma run_append (s : MenuCore) (l₁ l₂ : List (Nat × MenuInput)) :
    Menu.run s (l₁ ++ l₂) =
      ((Menu.run (Menu.run s l₁).1 l₂).1,
       (Menu.run s l₁).2.1 ++ (Menu.run (Menu.run s l₁).1 l₂).2.1,
       (Menu.run s l₁).2.2 ++ (Menu.run (Menu.run s l₁).1 l₂).2.2) := by
  induction l₁ generalizing s with
  | nil => simp [Menu.run]
  | cons te rest ih =>
    cases te with
    | mk t e =>
      rw [List.cons_append, run_cons, run_cons, ih]
      simp [run_cons, List.append_assoc]

lemma step_inputPosition (s : MenuCore) (t : Nat) (e : MenuInput) :
    (Menu.step s t e).1.inputPosition =
      (match e with | MenuInput.position p => p | _ => s.inputPosition) := by
  cases e with
  | position p => rw [step_position_eq]; split <;> simp [onDrag_inputPosition]
  | activation i => rw [step_activation_eq]; split <;> simp [unsubDragInner_inputPosition]
  | deactivation i =>
    rw [step_deactivation_eq]
    simp [foldl_onClickEvent_inputPosition, unsubDragInner_inputPosition]

lemma step_dragInner (s : MenuCore) (t : Nat) (e : MenuInput) :
    (Menu.step s t e).1.dragInner =
      (match e with
        | MenuInput.position _ => s.dragInner
        | MenuInput.activation i => if i.buttons = 1 then true else s.dragInner
        | MenuInput.deactivation _ => false) := by
  cases e with
  | position p => rw [step_position_eq]; split <;> simp_all [onDrag_dragInner]
  | activation i => rw [step_activation_eq]; split <;> simp_all
  | deactivation i =>
    rw [step_deactivation_eq]
    simp [foldl_onClickEvent_dragInner, unsubDragInner_dragInner]

lemma step_markingMode (s : MenuCore) (t : Nat) (e : MenuInput) :
    (Menu.step s t e).1.markingMode =
      (match e with
        | MenuInput.position _ => if s.dragInner then true else s.markingMode
        | MenuInput.activation i =>
            if i.buttons = 1 then (!s.dragInner && s.markingMode) else s.markingMode
        | MenuInput.deactivation _ => (!s.dragInner && s.markingMode)) := by
  cases e with
  | position p => rw [step_position_eq]; split <;> simp_all [onDrag_markingMode]
  | activation i => rw [step_activation_eq]; split <;> simp_all [unsubDragInner_markingMode]
  | deactivation i =>
    rw [step_deactivation_eq]
    simp [foldl_onClickEvent_markingMode, unsubDragInner_markingMode]

lemma step_marking_imp_dragInner (s : MenuCore) (t : Nat) (e : MenuInput)
    (h : s.markingMode = true → s.dragInner = true) :
    (Menu.step s t e).1.markingMode = true → (Menu.step s t e).1.dragInner = true := by
  rw [step_markingMode, step_dragInner]
  cases e with
  | position p => cases hdi : s.dragInner <;> simp_all
  | activation i =>
    rcases Nat.decEq i.buttons 1 with hb | hb
    · simp_all
    · cases hdi : s.dragInner <;> simp_all
  | deactivation i => cases hdi : s.dragInner <;> simp_all

lemma run_marking_imp_dragInner (s : MenuCore) (evs : List (Nat × MenuInput))
    (h : s.markingMode = true → s.dragInner = true) :
    (Menu.run s evs).1.markingMode = true → (Menu.run s evs).1.dragInner = true := by
  induction evs generalizing s with
  | nil => simpa [Menu.run] using h
  | cons te rest ih =>
    cases te with
    | mk t e =>
      rw [run_cons]
      exact ih (Menu.step s t e).1 (step_marking_imp_dragInner s t e h)

lemma lastPosition_cons (t : Nat) (e : MenuInput) (rest : List (Nat × MenuInput)) (d : Point) :
    lastPosition ((t, e) :: rest) d =
      lastPosition rest (match e with | MenuInput.position p => p | _ => d) := by
  cases e <;> simp [lastPosition]

lemma run_inputPosition (s : MenuCore) (evs : List (Nat × MenuInput)) :
    (Menu.run s evs).1.inputPosition = lastPosition evs s.inputPosition := by
  induction evs generalizing s with
  | nil => rfl
  | cons te rest ih =>
    cases te with
    | mk t e =>
      rw [run_cons, lastPosition_cons]
      cases e <;> simp only [ih, step_inputPosition]

lemma run_positions_drag (ps : List (Nat × Point)) (s : MenuCore) (h : s.dragInner = true) :
    (Menu.run s (ps.map (fun tp => (tp.1, MenuInput.position tp.2)))).2.1
        = ps.map (fun tp => ({ position := tp.2, state := DragState.DRAGGING } : DragDefinition))
    ∧ (Menu.run s (ps.map (fun tp => (tp.1, MenuInput.position tp.2)))).2.2 = []
    ∧ (Menu.run s (ps.map (fun tp => (tp.1, MenuInput.position tp.2)))).1.dragInner = true
    ∧ (Menu.run s (ps.map (fun tp => (tp.1, MenuInput.position tp.2)))).1.clickInners = s.clickInners
    ∧ (Menu.run s (ps.map (fun tp => (tp.1, MenuInput.position tp.2)))).1.inputPosition
        = ps.foldl (fun _ tp => tp.2) s.inputPosition
    ∧ (Menu.run s (ps.map (fun tp => (tp.1, MenuInput.position tp.2)))).1.markingMode
        = (if ps.isEmpty then s.markingMode else true) := by
  induction ps generalizing s with
  | nil => simp [Menu.run, h]
  | cons tp rest ih =>
    cases tp with
    | mk t p =>
      rw [List.map_cons, run_cons, step_position_eq, if_pos h]
      have hd : (Menu.onDrag { s with inputPosition := p }
          { position := p, state := DragState.DRAGGING }).dragInner = true := by
        rw [onDrag_dragInner]; exact h
      obtain ⟨h1, h2, h3, h4, h5, h6⟩ := ih _ hd
      refine ⟨by simpa using h1, by simpa using h2, by simpa using h3, ?_, ?_, ?_⟩
      · simpa [onDrag_clickInners] using h4
      · simpa [onDrag_inputPosition] using h5
      · cases rest with
        | nil => simpa [onDrag_markingMode] using h6
        | cons r rs => simpa using h6

lemma run_positions_idle (ps : List (Nat × Point)) (s : MenuCore) (h : s.dragInner = false) :
    (Menu.run s (ps.map (fun tp => (tp.1, MenuInput.position tp.2)))).2.1 = []
    ∧ (Menu.run s (ps.map (fun tp => (tp.1, MenuInput.position tp.2)))).2.2 = []
    ∧ (Menu.run s (ps.map (fun tp => (tp.1, MenuInput.position tp.2)))).1.dragInner = false
    ∧ (Menu.run s (ps.map (fun tp => (tp.1, MenuInput.position tp.2)))).1.markingMode = s.markingMode
    ∧ (Menu.run s (ps.map (fun tp => (tp.1, MenuInput.position tp.2)))).1.clickInners = s.clickInners := by
  induction ps generalizing s with
  | nil => simp [Menu.run, h]
  | cons tp rest ih =>
    cases tp with
    | mk t p =>
      rw [List.map_cons, run_cons, step_position_eq, if_neg (by simp [h])]
      obtain ⟨h1, h2, h3, h4, h5⟩ := ih { s with inputPosition := p } h
      exact ⟨by simpa using h1, by simpa using h2, by simpa using h3,
        by simpa using h4, by simpa using h5⟩

/-! ### Helper lemmas about angle normalization -/

lemma normalize360_eq_fract {α : Type} [LinearOrderedField α] [FloorRing α] (x : α) :
    normalize360 x = 360 * Int.fract (x / 360) := by
  unfold normalize360 Int.fract
  field_simp

lemma normalize360_nonneg {α : Type} [LinearOrderedField α] [FloorRing α] (x : α) :
    0 ≤ normalize360 x := by
  rw [normalize360_eq_fract]
  have h := Int.fract_nonneg (x / 360)
  nlinarith

lemma normalize360_lt {α : Type} [LinearOrderedField α] [FloorRing α] (x : α) :
    normalize360 x < 360 := by
  rw [normalize360_eq_fract]
  have h := Int.fract_lt_one (x / 360)
  nlinarith

lemma normalize360_neg {α : Type} [LinearOrderedField α] [FloorRing α] (x : α) :
    normalize360 (-x) = if normalize360 x = 0 then 0 else 360 - normalize360 x := by
  have hrw : (-x) / 360 = -(x / 360) := by ring
  by_cases h : Int.fract (x / 360) = 0
  · rw [normalize360_eq_fract, normalize360_eq_fract, hrw,
      Int.fract_neg_eq_zero.mpr h, h]
    simp
  · rw [normalize360_eq_fract, normalize360_eq_fract, hrw, Int.fract_neg h]
    have hne : (360 : α) * Int.fract (x / 360) ≠ 0 := by
      intro hz
      apply h
      have h360 : (360 : α) ≠ 0 := by norm_num
      exact (mul_eq_zero.mp hz).resolve_left h360
    rw [if_neg hne]
    ring

/-! ### Claim theorems -/

/-- C1 (counterexample): the claim states that `MenuEvent.equals` returns
`true` only when the targets match "including both being absent or both
present"; the code returns `true` for two otherwise-identical events of
which exactly one carries a target, because the target comparison is
skipped unless both targets are present. -/
theorem menuEvent_equals_counterexample :
    (({ type := MenuItemEventType.selection,
        source := { itemId := "a", angle := (0 : ℚ) },
        target := some { itemId := "t", angle := (90 : ℚ) },
        data := none } : MenuEvent ℚ).equals
      (some { type := MenuItemEventType.selection,
              source := { itemId := "a", angle := (5 : ℚ) },
              target := none,
              data := none })) = true
    ∧ ({ type := MenuItemEventType.selection,
         source := { itemId := "a", angle := (0 : ℚ) },
         target := some { itemId := "t", angle := (90 : ℚ) },
         data := none } : MenuEvent ℚ).target.isSome = true
    ∧ ({ type := MenuItemEventType.selection,
         source := { itemId := "a", angle := (5 : ℚ) },
         target := none,
         data := none } : MenuEvent ℚ).target.isSome = false := by
  refine ⟨rfl, rfl, rfl⟩

/-- C1 (amended): `MenuEvent.equals` returns `true` iff the types are
equal, the source item ids are equal, the data payloads are deeply equal,
and — only when both events carry a target — the target item ids and
angles are equal (if either target is absent, the target condition is
vacuously satisfied); the source angles are never consulted, and an
undefined argument is never equal. -/
theorem menuEvent_equals_spec (e₁ e₂ : MenuEvent ℚ) (a₁ a₂ : ℚ) :
    (e₁.equals (some e₂) = true ↔
      (e₂.type = e₁.type ∧ e₂.source.itemId = e₁.source.itemId
        ∧ (match e₂.target, e₁.target with
            | some t₂, some t₁ => t₂.itemId = t₁.itemId ∧ t₂.angle = t₁.angle
            | _, _ => True)
        ∧ isEqual e₂.data e₁.data = true))
    ∧ ({ e₁ with source := { itemId := e₁.source.itemId, angle := a₁ } } : MenuEvent ℚ).equals
        (some { e₂ with source := { itemId := e₂.source.itemId, angle := a₂ } })
      = e₁.equals (some e₂)
    ∧ e₁.equals none = false := by
  refine ⟨?_, ?_, rfl⟩
  · cases h₂ : e₂.target <;> cases h₁ : e₁.target <;>
      simp [MenuEvent.equals, h₁, h₂, Bool.and_eq_true, decide_eq_true_eq] <;> tauto
  · cases h₂ : e₂.target <;> cases h₁ : e₁.target <;>
      simp [MenuEvent.equals, h₁, h₂]

/-- C3 (counterexample): the claim states that `click$` and `dragging$`
fail with an initialization error before `init()`/`setStructure()`; on a
freshly constructed menu (neither has run: `rootItem` is unassigned and
`inited` is false) both accessors succeed, because the subjects they guard
are assigned in the constructor. -/
theorem observable_accessors_counterexample :
    Menu.clickObs Menu.new = Except.ok ()
    ∧ Menu.draggingObs Menu.new = Except.ok ()
    ∧ Menu.new.rootItem = none
    ∧ Menu.new.inited = false := by
  refine ⟨rfl, rfl, rfl, rfl⟩

/-- C3 (amended): only `selection$` fails with the initialization error
before `setStructure()` has run (and succeeds afterwards); `click$` and
`dragging$` are backed by subjects assigned in the constructor, so their
undefined-guards never fire and they succeed even before
`init()`/`setStructure()` (no operation ever unassigns those subjects). -/
theorem observable_accessors_spec :
    Menu.selectionObs Menu.new = Except.error "Menu not initialized"
    ∧ Menu.selectionObs (Menu.init Menu.new) = Except.error "Menu not initialized"
    ∧ (∀ (m : MenuState) (root : RootItem),
        Menu.selectionObs (Menu.setStructure m root) = Except.ok ())
    ∧ Menu.clickObs Menu.new = Except.ok ()
    ∧ Menu.draggingObs Menu.new = Except.ok ()
    ∧ (∀ m : MenuState, (Menu.init m).clickSubjDefined = m.clickSubjDefined
        ∧ (Menu.init m).draggingSubjDefined = m.draggingSubjDefined)
    ∧ (∀ (m : MenuState) (root : RootItem),
        (Menu.setStructure m root).clickSubjDefined = m.clickSubjDefined
        ∧ (Menu.setStructure m root).draggingSubjDefined = m.draggingSubjDefined) := by
  exact ⟨rfl, rfl, fun m root => rfl, rfl, rfl,
    fun m => ⟨rfl, rfl⟩, fun m root => ⟨rfl, rfl⟩⟩

/-- C6: when the root item is `HIDDEN` or `NONE`, `display()` resets the
trace, clears the trace visualization group, stops and restarts the fade
animation, makes the root item visible, sets it `ACTIVE` and repositions
it at the last known input position (all other fields unchanged); when the
root item is already `ACTIVE`, `display()` leaves the state fully
unchanged. -/
theorem display_behavior (m : MenuState) (root : RootItem) (h : m.rootItem = some root) :
    ((root.state = ItemState.HIDDEN ∨ root.state = ItemState.NONE) →
      Menu.display m = Except.ok { m with
        trace := []
        traceVisCount := 0
        fadeStops := m.fadeStops + 1
        fadeStarts := m.fadeStarts + 1
        fadeRunning := true
        rootItem := some { state := ItemState.ACTIVE, visible := true,
                           position := m.inputPosition } })
    ∧ (root.state = ItemState.ACTIVE → Menu.display m = Except.ok m) := by
  constructor
  · intro hs
    simp [Menu.display, h, hs]
  · intro hs
    simp [Menu.display, h, hs]

/-- C6 (witness): `display()` on a freshly structured menu whose root item
is `HIDDEN` produces exactly the activated state. -/
theorem display_behavior_witness :
    Menu.display (Menu.setStructure Menu.new
        { state := ItemState.HIDDEN, visible := true, position := (0, 0) })
      = Except.ok
          { rootItem := some { state := ItemState.ACTIVE, visible := true, position := (0, 0) }
            inputPosition := (0, 0)
            markingMode := false
            trace := []
            traceVisCount := 0
            fadeStarts := 1
            fadeStops := 1
            fadeRunning := true
            inited := false
            clickSubjDefined := true
            draggingSubjDefined := true } :=
  (display_behavior _ { state := ItemState.HIDDEN, visible := false, position := (0, 0) }
    rfl).1 (Or.inl rfl)

/-- C9: `display()` fails with the error `'Menu not initialized.'`
whenever `_rootItem` is unassigned — in particular even after `init()` has
completed, since `init()` never assigns `_rootItem` (only
`setStructure()` does). -/
theorem display_uninitialized (m : MenuState) (h : m.rootItem = none) :
    Menu.display m = Except.error "Menu not initialized."
    ∧ Menu.display (Menu.init m) = Except.error "Menu not initialized." := by
  constructor
  · simp [Menu.display, h]
  · simp [Menu.display, Menu.init, h]

/-- C9 (witness): `display()` on a freshly constructed menu and on a
constructed-then-initialized menu both fail with the initialization
error. -/
theorem display_uninitialized_witness :
    Menu.display Menu.new = Except.error "Menu not initialized."
    ∧ Menu.display (Menu.init Menu.new) = Except.error "Menu not initialized." :=
  display_uninitialized Menu.new rfl

/-- C10: the input position starts at `ZERO_POINT = (0, 0)` (both on the
constructed menu and on a freshly initialized one), after any run of input
events it equals the most recent position sample (or the prior value if
none arrived), and no other operation of the pipeline writes it
(`display`, the drag handler, the click handler, the drag-inner teardown,
`init` and `setStructure` all preserve it). -/
theorem inputPosition_tracking :
    Menu.new.inputPosition = ZERO_POINT
    ∧ ZERO_POINT = ((0 : ℚ), (0 : ℚ))
    ∧ (∀ root : RootItem, (Menu.freshCore root).inputPosition = ZERO_POINT)
    ∧ (∀ (s : MenuCore) (evs : List (Nat × MenuInput)),
        (Menu.run s evs).1.inputPosition = lastPosition evs s.inputPosition)
    ∧ (∀ m : MenuState, (Menu.init m).inputPosition = m.inputPosition)
    ∧ (∀ (m : MenuState) (root : RootItem),
        (Menu.setStructure m root).inputPosition = m.inputPosition)
    ∧ (∀ s : MenuCore, (Menu.displayCore s).inputPosition = s.inputPosition)
    ∧ (∀ (s : MenuCore) (d : DragDefinition), (Menu.onDrag s d).inputPosition = s.inputPosition)
    ∧ (∀ (s : MenuCore) (c : ClickState), (Menu.onClickEvent s c).inputPosition = s.inputPosition)
    ∧ (∀ s : MenuCore, (Menu.unsubDragInner s).1.inputPosition = s.inputPosition) := by
  exact ⟨rfl, rfl, fun root => rfl, run_inputPosition, fun m => rfl, fun m root => rfl,
    displayCore_inputPosition, onDrag_inputPosition, onClickEvent_inputPosition,
    unsubDragInner_inputPosition⟩

/-- C4 (counterexample): the claim requires `markingMode` to stay `false`
while a drag's travel has not exceeded `minDistance`; the drag handler
sets `markingMode` on every `DRAGGING` event without consulting any
distance, so a primary activation followed by a single sample one unit
away from the start (squared travel `1`, far below
`minDistance² = 22500`) already flips `markingMode` to `true`. -/
theorem markingMode_counterexample :
    (Menu.run (Menu.freshCore { state := ItemState.NONE, visible := false, position := (0, 0) })
        [(0, MenuInput.activation { buttons := 1, button := 0 }),
         (1, MenuInput.position (1, 0))]).1.markingMode = true
    ∧ sqDist ((0 : ℚ), (0 : ℚ)) ((1 : ℚ), (0 : ℚ)) = 1
    ∧ sqDist ((0 : ℚ), (0 : ℚ)) ((1 : ℚ), (0 : ℚ)) < Settings.minDistance ^ 2 := by
  refine ⟨by decide, ?_, ?_⟩
  · norm_num [sqDist]
  · norm_num [sqDist, Settings.minDistance]

/-- C4 (amended): `markingMode` never holds without a live drag (for every
input run, if it is `true` afterwards then the drag inner subscription is
still live), and during a live drag it becomes `true` on the very next
position sample — regardless of the distance travelled, `minDistance` is
not consulted. -/
theorem markingMode_invariant :
    (∀ (s : MenuCore) (evs : List (Nat × MenuInput)),
      (s.markingMode = true → s.dragInner = true) →
      ((Menu.run s evs).1.markingMode = true → (Menu.run s evs).1.dragInner = true))
    ∧ (∀ (s : MenuCore) (t : Nat) (p : Point),
        s.dragInner = true → (Menu.step s t (MenuInput.position p)).1.markingMode = true) := by
  constructor
  · exact run_marking_imp_dragInner
  · intro s t p h
    rw [step_markingMode]
    simp [h]

/-- C4 (witness): on a concrete run (primary activation followed by one
position sample) marking mode is live and so is the drag. -/
theorem markingMode_invariant_witness :
    (Menu.run (Menu.freshCore { state := ItemState.HIDDEN, visible := false, position := (0, 0) })
        [(0, MenuInput.activation { buttons := 1, button := 0 }),
         (5, MenuInput.position (2, 3))]).1.dragInner = true :=
  markingMode_invariant.1 _ _ (by decide) (by decide)

/-- C2 (counterexample): the claim states that an activation answered by a
deactivation within the 200-unit window emits exactly one click; the click
pipeline's `mergeMap` inner never completes after its first emission
(`timeoutWith` re-arms on every value), so a single activation followed by
two deactivations at t=50 and t=100 emits two `LEFT_CLICK` events. -/
theorem click_stream_counterexample :
    (Menu.run (Menu.freshCore { state := ItemState.NONE, visible := false, position := (0, 0) })
        [(0, MenuInput.activation { buttons := 1, button := 0 }),
         (50, MenuInput.deactivation { buttons := 0, button := 0 }),
         (100, MenuInput.deactivation { buttons := 0, button := 0 })]).2.2
      = [ClickState.LEFT_CLICK, ClickState.LEFT_CLICK]
    ∧ ([(0, MenuInput.activation { buttons := 1, button := 0 }),
        (50, MenuInput.deactivation { buttons := 0, button := 0 }),
        (100, MenuInput.deactivation { buttons := 0, button := 0 })].countP
          (fun te => match te.2 with | MenuInput.activation _ => true | _ => false)) = 1
    ∧ 50 < 0 + Menu.INPUT_TIMEOUT := by
  refine ⟨by decide, by decide, by decide⟩

/-- C2 (amended): for a single activation followed by a single
deactivation (no other live click listeners), the race behaves as claimed:
one click is emitted iff the deactivation arrives within
`INPUT_TIMEOUT = 200` units of the activation, classified `LEFT_CLICK`
when the released button is `0` and `RIGHT_CLICK` otherwise, and no click
is emitted when the window has elapsed; with further deactivations in the
window the listener re-arms and emits again (see the counterexample), so
"exactly one per activation" holds only for the single-deactivation
case. -/
theorem click_stream_race (s : MenuCore) (t₀ t₁ : Nat) (i j : Input)
    (hci : s.clickInners = []) (hdi : s.dragInner = false) (hm : s.markingMode = false) :
    (Menu.run s [(t₀, MenuInput.activation i), (t₁, MenuInput.deactivation j)]).2.2
      = if t₁ < t₀ + Menu.INPUT_TIMEOUT
        then [if j.button = 0 then ClickState.LEFT_CLICK else ClickState.RIGHT_CLICK]
        else [] := by
  by_cases hb : i.buttons = 1 <;> by_cases ht : t₁ < t₀ + Menu.INPUT_TIMEOUT <;>
    simp [run_cons, Menu.run, step_activation_eq, step_deactivation_eq,
      Menu.unsubDragInner, hb, ht, hci, hdi, hm, List.filter]

/-- C2 (witness): a left-button press at t=0 released at t=50 yields
exactly one `LEFT_CLICK`. -/
theorem click_stream_race_witness :
    (Menu.run (Menu.freshCore { state := ItemState.NONE, visible := false, position := (0, 0) })
        [(0, MenuInput.activation { buttons := 1, button := 0 }),
         (50, MenuInput.deactivation { buttons := 0, button := 0 })]).2.2
      = [ClickState.LEFT_CLICK] := by
  have h := click_stream_race
    (Menu.freshCore { state := ItemState.NONE, visible := false, position := (0, 0) })
    0 50 { buttons := 1, button := 0 } { buttons := 0, button := 0 } rfl rfl rfl
  simpa using h

/-- C5 (counterexample): the claim states the drag stream emits its final
`END` event on the deactivation that ends the drag; `switchMap` also
unsubscribes a live drag inner when a *new* primary activation arrives,
and the inner's `finalize` then emits `END` — so a run with two primary
activations and no deactivation at all still emits an `END` event. -/
theorem drag_stream_counterexample :
    (Menu.run (Menu.freshCore { state := ItemState.NONE, visible := false, position := (0, 0) })
        [(0, MenuInput.activation { buttons := 1, button := 0 }),
         (1, MenuInput.position (5, 0)),
         (2, MenuInput.activation { buttons := 1, button := 0 })]).2.1
      = [{ position := (5, 0), state := DragState.DRAGGING },
         { position := (5, 0), state := DragState.END }]
    ∧ ([(0, MenuInput.activation { buttons := 1, button := 0 }),
        (1, MenuInput.position (5, 0)),
        (2, MenuInput.activation { buttons := 1, button := 0 })].countP
          (fun te => match te.2 with | MenuInput.deactivation _ => true | _ => false)) = 0 := by
  refine ⟨rfl, by decide⟩

/-- C5 (amended): the drag stream starts only on an activation whose
`buttons` field equals 1 (primary button); it then emits
`{position, DRAGGING}` for each subsequent position sample until the next
deactivation, on which it emits one final `{position, END}` iff marking
mode was set (which, after a fresh activation, holds iff at least one
sample arrived); an activation with `buttons ≠ 1` starts no drag and its
position samples emit nothing.  (A new primary activation can also
preempt a live drag and emit the final `END` without any deactivation —
see the counterexample.) -/
theorem drag_stream_spec (s : MenuCore) (t₀ t₁ : Nat) (i j : Input) (ps : List (Nat × Point))
    (hdi : s.dragInner = false) (hm : s.markingMode = false) :
    (i.buttons = 1 →
      (Menu.run s ((t₀, MenuInput.activation i)
          :: (ps.map (fun tp => (tp.1, MenuInput.position tp.2))
              ++ [(t₁, MenuInput.deactivation j)]))).2.1
        = ps.map (fun tp => ({ position := tp.2, state := DragState.DRAGGING } : DragDefinition))
          ++ (if ps.isEmpty then []
              else [{ position := ps.foldl (fun _ tp => tp.2) s.inputPosition,
                      state := DragState.END }]))
    ∧ (i.buttons ≠ 1 →
      (Menu.run s ((t₀, MenuInput.activation i)
          :: (ps.map (fun tp => (tp.1, MenuInput.position tp.2))
              ++ [(t₁, MenuInput.deactivation j)]))).2.1 = []) := by
  have hunsub : Menu.unsubDragInner s = (s, []) := by
    simp [Menu.unsubDragInner, hdi]
  constructor
  · intro hb
    rw [run_cons, step_activation_eq, if_pos hb, hunsub]
    dsimp only
    rw [run_append]
    obtain ⟨h1, h2, h3, h4, h5, h6⟩ := run_positions_drag ps
      { s with dragInner := true, clickInners := s.clickInners ++ [t₀ + Menu.INPUT_TIMEOUT] } rfl
    rw [run_cons, step_deactivation_eq]
    dsimp only
    rw [unsubDragInner_log, h1, h3, h5, h6]
    dsimp only
    cases hps : ps.isEmpty
    · simp [Menu.run, hps]
    · simp [Menu.run, hps, hm]
  · intro hb
    rw [run_cons, step_activation_eq, if_neg hb]
    dsimp only
    rw [run_append]
    obtain ⟨h1, h2, h3, h4, h5⟩ := run_positions_idle ps
      { s with clickInners := s.clickInners ++ [t₀ + Menu.INPUT_TIMEOUT] } hdi
    rw [run_cons, step_deactivation_eq]
    dsimp only
    rw [unsubDragInner_log, h1, h3]
    simp [Menu.run]

/-- C5 (witness): a primary-button drag with one sample at (3,4) released
at t=7 emits that sample as `DRAGGING` followed by one final `END` at the
same position. -/
theorem drag_stream_spec_witness :
    (Menu.run (Menu.freshCore { state := ItemState.HIDDEN, visible := false, position := (0, 0) })
        [(0, MenuInput.activation { buttons := 1, button := 0 }),
         (1, MenuInput.position (3, 4)),
         (7, MenuInput.deactivation { buttons := 0, button := 0 })]).2.1
      = [{ position := (3, 4), state := DragState.DRAGGING },
         { position := (3, 4), state := DragState.END }] := by
  have h := (drag_stream_spec
    (Menu.freshCore { state := ItemState.HIDDEN, visible := false, position := (0, 0) })
    0 7 { buttons := 1, button := 0 } { buttons := 0, button := 0 }
    [(1, ((3 : ℚ), (4 : ℚ)))] rfl rfl).1 rfl
  simpa using h

/-- C7: every constructed `MenuEvent` carries its source angle — and, when
a target is given, its target angle — converted through `Angle.toDeg`
(spec-modelled: radians to normalized degrees), while type, item ids and
data are copied unchanged; `Angle.toDeg` always lands in `[0, 360)`, so no
raw radian value survives on an emitted event. -/
theorem menuEvent_angles_normalized (type : MenuItemEventType) (source : MenuIdentifier ℝ)
    (target : Option (MenuIdentifier ℝ)) (data : Option DataRecord) :
    (MenuEvent.construct type source target data).source.angle = Angle.toDeg source.angle
    ∧ (MenuEvent.construct type source target data).source.itemId = source.itemId
    ∧ (MenuEvent.construct type source target data).target
        = target.map (fun t => { itemId := t.itemId, angle := Angle.toDeg t.angle })
    ∧ (MenuEvent.construct type source target data).data = data
    ∧ (MenuEvent.construct type source target data).type = type
    ∧ (∀ x : ℝ, 0 ≤ Angle.toDeg x ∧ Angle.toDeg x < 360) := by
  refine ⟨rfl, rfl, rfl, rfl, rfl, fun x => ?_⟩
  unfold Angle.toDeg
  exact ⟨normalize360_nonneg _, normalize360_lt _⟩


lemma angle_difference_eq (a b : ℚ) :
    Angle.difference a b =
      if 180 < normalize360 (a - b) then normalize360 (a - b) - 360
      else normalize360 (a - b) := by
  simp only [Angle.difference]

/-- C8 (counterexample): the two spec sentences are incompatible at the
antipodal boundary: with codomain `(-180, 180]` (as the spec fixes it),
`difference(180, 0)` and `difference(0, 180)` both equal `180`, so
`difference(a, b) = -difference(b, a)` fails there. -/
theorem angle_difference_counterexample :
    Angle.difference 180 0 = 180
    ∧ Angle.difference 0 180 = 180
    ∧ Angle.difference 180 0 ≠ -Angle.difference 0 180 := by
  have h1 : Angle.difference 180 0 = 180 := by
    norm_num [Angle.difference, normalize360]
  have h2 : Angle.difference 0 180 = 180 := by
    norm_num [Angle.difference, normalize360]
  refine ⟨h1, h2, ?_⟩
  rw [h1, h2]
  norm_num

/-- C8 (amended): `Angle.difference` (spec-modelled) always lies in the
half-open range `(-180, 180]` and satisfies `|difference(a, b)| ≤ 180`;
the antisymmetry `difference(a, b) = -difference(b, a)` holds except at
the antipodal boundary: when `difference(a, b) = 180` the reverse
difference is also `+180` (both directions map to the closed endpoint). -/
theorem angle_difference_spec (a b : ℚ) :
    (-180 < Angle.difference a b ∧ Angle.difference a b ≤ 180)
    ∧ |Angle.difference a b| ≤ 180
    ∧ (Angle.difference a b ≠ 180 → Angle.difference a b = -Angle.difference b a) := by
  have hnn : 0 ≤ normalize360 (a - b) := normalize360_nonneg _
  have hlt : normalize360 (a - b) < 360 := normalize360_lt _
  have hrange : -180 < Angle.difference a b ∧ Angle.difference a b ≤ 180 := by
    rw [angle_difference_eq]
    split <;> constructor <;> linarith
  refine ⟨hrange, abs_le.mpr ⟨le_of_lt hrange.1, hrange.2⟩, ?_⟩
  intro hne
  have hba : b - a = -(a - b) := by ring
  have hneg : normalize360 (b - a)
      = if normalize360 (a - b) = 0 then 0 else 360 - normalize360 (a - b) := by
    rw [hba, normalize360_neg]
  by_cases h0 : normalize360 (a - b) = 0
  · rw [if_pos h0] at hneg
    rw [angle_difference_eq, angle_difference_eq, h0, hneg]
    norm_num
  · rw [if_neg h0] at hneg
    have h0lt : 0 < normalize360 (a - b) := lt_of_le_of_ne hnn (Ne.symm h0)
    by_cases h180 : 180 < normalize360 (a - b)
    · have hd : Angle.difference a b = normalize360 (a - b) - 360 := by
        unfold Angle.difference
        rw [if_pos h180]
      have hd2 : Angle.difference b a = 360 - normalize360 (a - b) := by
        rw [angle_difference_eq, hneg, if_neg (by linarith)]
      rw [hd, hd2]
      ring
    · have hlt180 : normalize360 (a - b) < 180 := by
        rcases lt_or_eq_of_le (not_lt.mp h180) with h | h
        · exact h
        · exfalso
          apply hne
          rw [angle_difference_eq, if_neg (by linarith), h]
      have hd : Angle.difference a b = normalize360 (a - b) := by
        rw [angle_difference_eq, if_neg (by linarith)]
      have hd2 : Angle.difference b a = (360 - normalize360 (a - b)) - 360 := by
        rw [angle_difference_eq, hneg, if_pos (by linarith)]
      rw [hd, hd2]
      ring

/-- C8 (witness): away from the boundary the antisymmetry holds, e.g.
`difference(90, 0) = -difference(0, 90)`. -/
theorem angle_difference_spec_witness :
    Angle.difference 90 0 = -Angle.difference 0 90 := by
  apply (angle_difference_spec 90 0).2.2
  norm_num [Angle.difference, normalize360]
